import Mathlib

/-!
Shallow embedding of the `aioevtracker` Python client library
(`src/aioevtracker/{client,models,exceptions}.py`) and proofs about it.

JSON values and Python dynamic values are modelled by one inductive `Json`
(where `Json.null` is Python `None`); Python `dict`s are association lists
with first-match lookup; Python exceptions become an error type `PyErr`
returned through `Except`.  The HTTP transport is modelled by an
`HttpOutcome` describing what `aiohttp` would give back for one request;
every client operation is a pure function of that outcome.
-/

namespace EvTracker

/-- JSON values / Python dynamic values.  `null` doubles as Python `None`;
Python `float`s are modelled as rationals. -/
inductive Json where
  | null
  | bool (b : Bool)
  | int (n : Int)
  | num (q : Rat)
  | str (s : String)
  | arr (xs : List Json)
  | obj (fields : List (String × Json))

/-- Python truthiness (`if x:`) restricted to JSON-like values:
`None`, `False`, `0`, `0.0`, `""`, `[]` and `{}` are falsy. -/
def Json.truthy : Json → Bool
  | .null => false
  | .bool b => b
  | .int n => decide (n ≠ 0)
  | .num q => decide (q ≠ 0)
  | .str s => decide (s ≠ "")
  | .arr xs => !xs.isEmpty
  | .obj fs => !fs.isEmpty

/-- Python `data.get(k)`: `None` when the key is absent. -/
def dictGet (data : List (String × Json)) (k : String) : Json :=
  (List.lookup k data).getD .null

/-- Python `data.get(k, dflt)`. -/
def dictGetD (data : List (String × Json)) (k : String) (dflt : Json) : Json :=
  (List.lookup k data).getD dflt

/-- Python exceptions raised by this library.  The constructors `evAuth`,
`evRateLimit`, `evConn` and `evApi` are the four classes of
`exceptions.py`; `keyError`, `typeError` and `attrError` are the builtin
exceptions its parsing code can raise. -/
inductive PyErr where
  | evAuth (msg : String)
  | evRateLimit (msg : String)
  | evConn (msg : String)
  | evApi (msg : String)
  | keyError (key : String)
  | typeError (msg : String)
  | attrError (msg : String)
deriving DecidableEq

/-- `isinstance(e, EVTrackerAuthenticationError)`. -/
def PyErr.isEVTrackerAuthenticationError : PyErr → Bool
  | .evAuth _ => true
  | _ => false

/-- `isinstance(e, EVTrackerApiError)`.  Per `exceptions.py`, the
authentication, rate-limit and connection error classes all derive from
`EVTrackerApiError`, so all four library errors match. -/
def PyErr.isEVTrackerApiError : PyErr → Bool
  | .evAuth _ => true
  | .evRateLimit _ => true
  | .evConn _ => true
  | .evApi _ => true
  | _ => false

/-! ### Calendar arithmetic and `datetime` values

Python `datetime` objects are modelled by their wall-clock fields plus an
optional UTC offset (`None` for naive datetimes, `some off` for aware ones,
`off` in minutes).  `astimezone` needs proleptic-Gregorian day arithmetic;
`daysFromCivil`/`civilFromDays` are the standard era-based conversions. -/

/-- Days since 1970-01-01 of the proleptic Gregorian date `y-m-d`. -/
def daysFromCivil (y : Int) (m d : Nat) : Int :=
  let y' := if m ≤ 2 then y - 1 else y
  let era := y'.fdiv 400
  let yoe := y' - era * 400
  let mp : Int := (m : Int) + (if 2 < m then -3 else 9)
  let doy := (153 * mp + 2).fdiv 5 + (d : Int) - 1
  let doe := yoe * 365 + yoe.fdiv 4 - yoe.fdiv 100 + doy
  era * 146097 + doe - 719468

/-- Inverse of `daysFromCivil`: the date `(y, m, d)` of a day count. -/
def civilFromDays (z : Int) : Int × Nat × Nat :=
  let z' := z + 719468
  let era := z'.fdiv 146097
  let doe := z' - era * 146097
  let yoe := (doe - doe.fdiv 1460 + doe.fdiv 36524 - doe.fdiv 146096).fdiv 365
  let y := yoe + era * 400
  let doy := doe - (365 * yoe + yoe.fdiv 4 - yoe.fdiv 100)
  let mp := (5 * doy + 2).fdiv 153
  let d := doy - (153 * mp + 2).fdiv 5 + 1
  let m := mp + (if mp < 10 then 3 else -9)
  (if m ≤ 2 then y + 1 else y, m.toNat, d.toNat)

/-- A Python `datetime`: wall-clock fields plus `utcoffset()` in minutes
(`none` for a naive datetime). -/
structure PyDatetime where
  year : Int
  month : Nat
  day : Nat
  hour : Nat
  minute : Nat
  second : Nat
  utcOffsetMinutes : Option Int
deriving DecidableEq

/-- `datetime.tzinfo is not None`. -/
def PyDatetime.isAware (d : PyDatetime) : Bool :=
  d.utcOffsetMinutes.isSome

/-- Seconds since the epoch of the wall-clock fields, ignoring the zone. -/
def PyDatetime.wallSeconds (d : PyDatetime) : Int :=
  daysFromCivil d.year d.month d.day * 86400
    + (d.hour : Int) * 3600 + (d.minute : Int) * 60 + (d.second : Int)

/-- The absolute instant (seconds since the epoch, UTC) denoted by an
aware datetime: wall-clock seconds minus the UTC offset. -/
def PyDatetime.awareInstant (d : PyDatetime) : Int :=
  d.wallSeconds - (d.utcOffsetMinutes.getD 0) * 60

/-- The UTC datetime for an absolute instant. -/
def utcOfInstant (i : Int) : PyDatetime :=
  let days := i.fdiv 86400
  let sod := (i - days * 86400).toNat
  let c := civilFromDays days
  ⟨c.1, c.2.1, c.2.2, sod / 3600, sod % 3600 / 60, sod % 60, some 0⟩

/-- `dt.astimezone(UTC)`.  For an aware datetime the offset is its own;
for a naive one Python interprets the wall-clock fields in the system
local zone, modelled here by the extra `localOffsetMinutes` argument. -/
def datetimeAstimezoneUTC (localOffsetMinutes : Int) (d : PyDatetime) : PyDatetime :=
  let off := d.utcOffsetMinutes.getD localOffsetMinutes
  utcOfInstant (d.wallSeconds - off * 60)

/-- Left-pad the decimal digits of `n` with zeros to width `w`. -/
def padNat (w n : Nat) : String :=
  let s := toString n
  String.mk (List.replicate (w - s.length) '0') ++ s

/-- Render a year as `strftime`'s `%Y` does for the years this API deals
in (zero-padded to four digits, a leading minus for negative years). -/
def padYear (y : Int) : String :=
  if y < 0 then "-" ++ padNat 4 (-y).toNat else padNat 4 y.toNat

/-- `dt.strftime("%Y-%m-%dT%H:%M:%SZ")`. -/
def pyStrftimeISOZ (d : PyDatetime) : String :=
  (padYear d.year ++ "-" ++ padNat 2 d.month ++ "-" ++ padNat 2 d.day
    ++ "T" ++ padNat 2 d.hour ++ ":" ++ padNat 2 d.minute ++ ":"
    ++ padNat 2 d.second) ++ "Z"

/-- The `datetime | str` part of `_format_datetime_for_api`'s argument. -/
inductive DtArg where
  | dt (d : PyDatetime)
  | str (s : String)
deriving DecidableEq

/-- `client._format_datetime_for_api` (client.py:34-52): `None` passes
through, strings pass through unchanged, datetimes are converted to UTC
(both branches of the source's `if dt.tzinfo is None` call
`dt.astimezone(UTC)`) and rendered as `%Y-%m-%dT%H:%M:%SZ`. -/
def _format_datetime_for_api (localOffsetMinutes : Int) :
    Option DtArg → Option String
  | none => none
  | some (.str s) => some s
  | some (.dt d) => some (pyStrftimeISOZ (datetimeAstimezoneUTC localOffsetMinutes d))

/-! ### `models.py` -/

/-- Number of days in a month of the proleptic Gregorian calendar. -/
def daysInMonth (y : Int) (m : Nat) : Nat :=
  if m = 2 then
    if y % 4 = 0 ∧ (y % 100 ≠ 0 ∨ y % 400 = 0) then 29 else 28
  else if m = 4 ∨ m = 6 ∨ m = 9 ∨ m = 11 then 30 else 31

/-- Parse a two-digit pair `"HH:MM"` into minutes. -/
def parseHHMM (s : String) : Option Int :=
  match s.splitOn ":" with
  | [hs, ms] => do
    guard (hs.length = 2 ∧ ms.length = 2
      ∧ hs.all Char.isDigit ∧ ms.all Char.isDigit)
    let h ← hs.toNat?
    let m ← ms.toNat?
    guard (m ≤ 59)
    pure ((h : Int) * 60 + (m : Int))
  | _ => none

/-- Parse `"HH:MM"` or `"HH:MM:SS"` into `(hour, minute, second)`. -/
def parseTimeOfDay (s : String) : Option (Nat × Nat × Nat) := do
  let parts := s.splitOn ":"
  guard (parts.length = 2 ∨ parts.length = 3)
  guard (parts.all fun p => p.length = 2 ∧ p.all Char.isDigit)
  match parts with
  | [hs, ms] => do
    let h ← hs.toNat?
    let m ← ms.toNat?
    guard (h ≤ 23 ∧ m ≤ 59)
    pure (h, m, 0)
  | [hs, ms, ss] => do
    let h ← hs.toNat?
    let m ← ms.toNat?
    let sec ← ss.toNat?
    guard (h ≤ 23 ∧ m ≤ 59 ∧ sec ≤ 59)
    pure (h, m, sec)
  | _ => none

/-- Split a time-of-day string from a trailing `+HH:MM` / `-HH:MM` zone
offset, returning the offset in signed minutes when present. -/
def splitUtcOffset (s : String) : Option (String × Option Int) :=
  match s.splitOn "+" with
  | [t, off] => do
    let m ← parseHHMM off
    pure (t, some m)
  | [t] =>
    match t.splitOn "-" with
    | [t', off] => do
      let m ← parseHHMM off
      pure (t', some (-m))
    | [t'] => pure (t', none)
    | _ => none
  | _ => none

/-- Models the stdlib `datetime.fromisoformat` for the shapes this
library's backend emits: `YYYY-MM-DD`, optionally followed by
`T` or a space and `HH:MM[:SS]`, optionally followed by a `±HH:MM` zone
offset.  Anything else is a parse failure (`ValueError`, i.e. `none`). -/
def fromisoformat (s : String) : Option PyDatetime := do
  guard (10 ≤ s.length)
  let date := s.take 10
  let rest := s.drop 10
  match date.splitOn "-" with
  | [ys, ms, ds] => do
    guard (ys.length = 4 ∧ ms.length = 2 ∧ ds.length = 2
      ∧ ys.all Char.isDigit ∧ ms.all Char.isDigit ∧ ds.all Char.isDigit)
    let y ← ys.toNat?
    let m ← ms.toNat?
    let d ← ds.toNat?
    guard (1 ≤ m ∧ m ≤ 12 ∧ 1 ≤ d ∧ d ≤ daysInMonth (y : Int) m)
    if rest = "" then
      pure ⟨(y : Int), m, d, 0, 0, 0, none⟩
    else do
      guard (rest.take 1 = "T" ∨ rest.take 1 = " ")
      let (tod, off) ← splitUtcOffset (rest.drop 1)
      let (h, mi, sec) ← parseTimeOfDay tod
      pure ⟨(y : Int), m, d, h, mi, sec, off⟩
  | _ => none

/-- `models._parse_datetime` (models.py:88-98) applied to the raw value
`data.get(...)` produced (so `Json.null` is the absent / `None` case).
A trailing `Z` is rewritten to `+00:00`; `ValueError`s from
`fromisoformat` are caught and become `none`; a non-string non-`None`
value raises `AttributeError` at `value.endswith`, which the source's
`except (ValueError, TypeError)` does not catch. -/
def _parse_datetime : Json → Except PyErr (Option PyDatetime)
  | .null => .ok none
  | .str v =>
    let v' := if v.endsWith "Z" then v.dropRight 1 ++ "+00:00" else v
    .ok (fromisoformat v')
  | _ => .error (.attrError "endswith")

/-- `models.Car`: field values are kept as dynamic values, as the Python
dataclass does (`Json.null` standing for `None`). -/
structure Car where
  id : Json
  name : Json
  make : Json
  model : Json
  year : Json

/-- `Car.from_dict` (models.py:20-29): `data["id"]` and `data["name"]`
raise `KeyError` when absent; the rest default to `None`. -/
def Car.from_dict (data : List (String × Json)) : Except PyErr Car :=
  match List.lookup "id" data with
  | none => .error (.keyError "id")
  | some idv =>
    match List.lookup "name" data with
    | none => .error (.keyError "name")
    | some namev =>
      .ok { id := idv, name := namev, make := dictGet data "make"
          , model := dictGet data "model", year := dictGet data "year" }

/-- `Car.from_dict` on an arbitrary value: indexing a non-dict with a
string key raises `TypeError`. -/
def Car.from_dictJson : Json → Except PyErr Car
  | .obj fields => Car.from_dict fields
  | _ => .error (.typeError "car data is not a dict")

/-- `models.ChargingSession`. -/
structure ChargingSession where
  id : Json
  energy_kwh : Json
  cost : Json
  start_time : Option PyDatetime
  end_time : Option PyDatetime
  location : Json
  energy_source : Json
  rate_type : Json

/-- `ChargingSession.from_dict` (models.py:45-57): `data["id"]` raises
`KeyError` when absent; `energyConsumedKwh` defaults to `0.0`; the
timestamps go through `_parse_datetime`; everything else defaults to
`None`. -/
def ChargingSession.from_dict (data : List (String × Json)) :
    Except PyErr ChargingSession :=
  match List.lookup "id" data with
  | none => .error (.keyError "id")
  | some idv =>
    match _parse_datetime (dictGet data "startTime") with
    | .error e => .error e
    | .ok st =>
    match _parse_datetime (dictGet data "endTime") with
    | .error e => .error e
    | .ok en =>
    .ok { id := idv
        , energy_kwh := dictGetD data "energyConsumedKwh" (.num 0)
        , cost := dictGet data "totalCost"
        , start_time := st
        , end_time := en
        , location := dictGet data "location"
        , energy_source := dictGet data "energySource"
        , rate_type := dictGet data "rateType" }

/-- `models.HomeAssistantState`. -/
structure HomeAssistantState where
  monthly_energy : Json
  monthly_cost : Json
  monthly_sessions : Json
  yearly_energy : Json
  yearly_cost : Json
  last_session_energy : Json
  last_session_cost : Json
  avg_cost_per_kwh : Json

/-- `HomeAssistantState.from_dict` (models.py:73-85): no required fields,
every lookup has a default, so parsing never fails. -/
def HomeAssistantState.from_dict (data : List (String × Json)) :
    HomeAssistantState :=
  { monthly_energy := dictGetD data "monthlyEnergy" (.num 0)
  , monthly_cost := dictGetD data "monthlyCost" (.num 0)
  , monthly_sessions := dictGetD data "monthlySessions" (.int 0)
  , yearly_energy := dictGetD data "yearlyEnergy" (.num 0)
  , yearly_cost := dictGetD data "yearlyCost" (.num 0)
  , last_session_energy := dictGet data "lastSessionEnergy"
  , last_session_cost := dictGet data "lastSessionCost"
  , avg_cost_per_kwh := dictGet data "avgCostPerKwh" }

/-! ### `client.py`: construction and the request pipeline -/

def DEFAULT_API_BASE_URL : String := "https://api.evtracker.cz/api/v1"

def ENDPOINT_CARS : String := "/cars"

def ENDPOINT_CARS_DEFAULT : String := "/cars/default"

def ENDPOINT_SESSIONS : String := "/sessions"

def ENDPOINT_SESSIONS_SIMPLE : String := "/sessions/simple"

def ENDPOINT_HA_STATE : String := "/homeassistant/state"

/-- Python `s.rstrip("/")`: remove every trailing `'/'`. -/
def pyRstripSlash (s : String) : String :=
  String.mk ((s.data.reverse.dropWhile (fun c => c = '/')).reverse)

/-- The immutable configuration an `EVTrackerClient` instance carries
(`client.py:66-78`); the mutable session fields are modelled separately
by `ClientSessionState`. -/
structure EVTrackerClient where
  api_key : String
  base_url : String
  user_agent : String

/-- `EVTrackerClient.__init__` (client.py:66-78): the base URL is
`base_url.rstrip("/")` and the user agent is `user_agent or
"aioevtracker"` (Python `or`, i.e. the default also replaces `""`). -/
def EVTrackerClient.init (api_key : String) (base_url : String)
    (user_agent : Option String) : EVTrackerClient :=
  { api_key := api_key
  , base_url := pyRstripSlash base_url
  , user_agent :=
      match user_agent with
      | some ua => if ua = "" then "aioevtracker" else ua
      | none => "aioevtracker" }

/-- `client.py:117`: `url = f"{self.base_url}{endpoint}"`. -/
def EVTrackerClient.requestUrl (c : EVTrackerClient) (endpoint : String) : String :=
  c.base_url ++ endpoint

/-- `EVTrackerClient._get_headers` (client.py:100-107). -/
def EVTrackerClient._get_headers (c : EVTrackerClient) : List (String × String) :=
  [ ("x-api-key", c.api_key)
  , ("Content-Type", "application/json")
  , ("Accept", "application/json")
  , ("User-Agent", c.user_agent) ]

/-- What the transport gives back for one request: either an
`aiohttp.ClientError` (DNS, refused connection, timeout, TLS, ...) or a
response with a status, headers, body text and, when the body parses,
its JSON value. -/
inductive HttpOutcome where
  | clientError (msg : String)
  | response (status : Nat) (headers : List (String × String))
      (text : String) (body : Option Json)

/-- Models Python `str()` on JSON-like values, used only when a 4xx error
envelope carries a non-string `error.message` that gets interpolated into
an f-string (no claim exercises this; float rendering is approximated by
rational rendering). -/
def pyStr : Json → String
  | .null => "None"
  | .bool b => if b then "True" else "False"
  | .int n => toString n
  | .num q => toString q
  | .str s => s
  | .arr _ => "[...]"
  | .obj _ => "{...}"

/-- The 4xx branch of `_request` (client.py:149-156): try
`error_data.get("error", {}).get("message", "Unknown error")`, and on any
exception (body not JSON, or the envelope pieces not dicts) fall back to
the raw body text. -/
def errorMsgFromBody (text : String) (body : Option Json) : String :=
  match body with
  | none => text
  | some (.obj fs) =>
    match List.lookup "error" fs with
    | none => "Unknown error"
    | some (.obj efs) =>
      match List.lookup "message" efs with
      | none => "Unknown error"
      | some (.str m) => m
      | some v => pyStr v
    | some _ => text
  | some _ => text

/-- `EVTrackerClient._request` (client.py:109-165) as a function of the
transport outcome.  Status classification in source order: 401, 403, 429,
`>= 500`, `>= 400`, then success returning the parsed JSON body.  An
`aiohttp.ClientError` is wrapped into a connection error; a 2xx body that
is not JSON surfaces as `aiohttp.ContentTypeError`, a `ClientError`,
hence also a connection error. -/
def EVTrackerClient._request (c : EVTrackerClient) (method endpoint : String)
    (outcome : HttpOutcome) : Except PyErr Json :=
  let _url := c.requestUrl endpoint
  let _hdrs := c._get_headers
  let _m := method
  match outcome with
  | .clientError msg => .error (.evConn ("Connection error: " ++ msg))
  | .response status hdrs text body =>
    if status = 401 then
      .error (.evAuth "Invalid API key")
    else if status = 403 then
      .error (.evAuth "API key lacks permissions or PRO subscription required")
    else if status = 429 then
      let retry_after := (List.lookup "Retry-After" hdrs).getD "60"
      .error (.evRateLimit
        ("Rate limit exceeded. Retry after " ++ retry_after ++ " seconds"))
    else if 500 ≤ status then
      .error (.evApi ("Server error: " ++ toString status ++ " - " ++ text))
    else if 400 ≤ status then
      .error (.evApi
        ("API error: " ++ toString status ++ " - " ++ errorMsgFromBody text body))
    else
      match body with
      | some j => .ok j
      | none => .error (.evConn "Connection error: response body is not JSON")

/-- `EVTrackerClient.get_cars` (client.py:167-174):
`response.get("data", [])` mapped through `Car.from_dict`.  A non-dict
response raises `AttributeError` at `.get`; iterating a non-list `data`
raises `TypeError`. -/
def EVTrackerClient.get_cars (c : EVTrackerClient) (outcome : HttpOutcome) :
    Except PyErr (List Car) :=
  match c._request "GET" ENDPOINT_CARS outcome with
  | .error e => .error e
  | .ok response =>
    match response with
    | .obj fs =>
      match (List.lookup "data" fs).getD (.arr []) with
      | .arr cars => cars.mapM Car.from_dictJson
      | _ => .error (.typeError "data is not iterable")
    | _ => .error (.attrError "get")

/-- `EVTrackerClient.get_default_car` (client.py:185-193):
`data = response.get("data")`, then `Car.from_dict(data) if data else
None` — Python truthiness, so any falsy `data` yields `None`. -/
def EVTrackerClient.get_default_car (c : EVTrackerClient)
    (outcome : HttpOutcome) : Except PyErr (Option Car) :=
  match c._request "GET" ENDPOINT_CARS_DEFAULT outcome with
  | .error e => .error e
  | .ok response =>
    match response with
    | .obj fs =>
      let data := dictGet fs "data"
      if data.truthy then (Car.from_dictJson data).map some else .ok none
    | _ => .error (.attrError "get")

/-- `EVTrackerClient.validate_api_key` (client.py:339-352): `get_cars`
success maps to `True`; `except EVTrackerAuthenticationError` maps to
`False`; `except EVTrackerApiError` maps to `False` (and, since every
library error class derives from `EVTrackerApiError`, this clause also
catches rate-limit and connection errors); anything else propagates. -/
def EVTrackerClient.validate_api_key (c : EVTrackerClient)
    (outcome : HttpOutcome) : Except PyErr Bool :=
  match c.get_cars outcome with
  | .ok _ => .ok true
  | .error e =>
    if e.isEVTrackerAuthenticationError then .ok false
    else if e.isEVTrackerApiError then .ok false
    else .error e

/-! ### `client.py`: session-logging payload construction

The source builds each payload by successive conditional `payload[k] = v`
assignments on distinct literal keys, which is the same as concatenating
one (possibly empty) segment per argument in source order.  Each segment
shape below is the source's recurring pattern for one argument kind. -/

/-- The `start_time`/`end_time` pattern (client.py:250-258): skip `None`,
format, and only assign when the formatted value is truthy (a non-empty
string). -/
def segDt (localOff : Int) (key : String) : Option DtArg → List (String × Json)
  | none => []
  | some t =>
    match _format_datetime_for_api localOff (some t) with
    | some f => if f = "" then [] else [(key, .str f)]
    | none => []

/-- The `if value:` pattern for string arguments: assigned only when the
value is truthy, i.e. supplied and non-empty. -/
def segStr (key : String) : Option String → List (String × Json)
  | none => []
  | some s => if s = "" then [] else [(key, .str s)]

/-- Like `segStr` but upper-casing the value (`energy_source.upper()`,
`rate_type.upper()`). -/
def segStrUpper (key : String) : Option String → List (String × Json)
  | none => []
  | some s => if s = "" then [] else [(key, .str s.toUpper)]

/-- The `if value is not None:` pattern for an integer argument (`car_id`). -/
def segInt (key : String) : Option Int → List (String × Json)
  | none => []
  | some n => [(key, .int n)]

/-- The `if value is not None:` pattern for a float argument
(`price_per_kwh`, `vat_percentage`). -/
def segNum (key : String) : Option Rat → List (String × Json)
  | none => []
  | some q => [(key, .num q)]

/-- The arguments of `EVTrackerClient.log_session` (client.py:213-227);
every optional argument defaults to `None`. -/
structure LogSessionArgs where
  energy_kwh : Rat
  start_time : Option DtArg := none
  end_time : Option DtArg := none
  car_id : Option Int := none
  location : Option String := none
  external_id : Option String := none
  provider : Option String := none
  energy_source : Option String := none
  rate_type : Option String := none
  price_per_kwh : Option Rat := none
  vat_percentage : Option Rat := none
  notes : Option String := none

/-- The request body built by `EVTrackerClient.log_session`
(client.py:248-277): `energyConsumedKwh` always present, then one
conditional segment per optional argument in source order. -/
def log_session_payload (localOff : Int) (a : LogSessionArgs) :
    List (String × Json) :=
  [("energyConsumedKwh", Json.num a.energy_kwh)]
    ++ segDt localOff "startTime" a.start_time
    ++ segDt localOff "endTime" a.end_time
    ++ segInt "carId" a.car_id
    ++ segStr "location" a.location
    ++ segStr "externalId" a.external_id
    ++ segStr "provider" a.provider
    ++ segStrUpper "energySource" a.energy_source
    ++ segStrUpper "rateType" a.rate_type
    ++ segNum "pricePerKwhWithoutVat" a.price_per_kwh
    ++ segNum "vatPercentage" a.vat_percentage
    ++ segStr "notes" a.notes

/-- The arguments of `EVTrackerClient.log_session_simple`
(client.py:284-294), a reduced set of `log_session`'s. -/
structure LogSessionSimpleArgs where
  energy_kwh : Rat
  start_time : Option DtArg := none
  end_time : Option DtArg := none
  car_id : Option Int := none
  location : Option String := none
  external_id : Option String := none
  energy_source : Option String := none
  rate_type : Option String := none

/-- The request body built by `EVTrackerClient.log_session_simple`
(client.py:311-332). -/
def log_session_simple_payload (localOff : Int) (a : LogSessionSimpleArgs) :
    List (String × Json) :=
  [("energyConsumedKwh", Json.num a.energy_kwh)]
    ++ segDt localOff "startTime" a.start_time
    ++ segDt localOff "endTime" a.end_time
    ++ segInt "carId" a.car_id
    ++ segStr "location" a.location
    ++ segStr "externalId" a.external_id
    ++ segStrUpper "energySource" a.energy_source
    ++ segStrUpper "rateType" a.rate_type

/-! ### `client.py`: session lifecycle (`_get_session` / `close`)

`aiohttp.ClientSession` objects are modelled by numeric handles in a
small world: `nextId` is the next unused handle and `closedIds` the
handles whose sessions have been closed.  A client's mutable state is the
stored handle (`self._session`) and the ownership flag
(`self._owned_session`, `False` at construction). -/

/-- The pool of session handles: `nextId` has never been used, and
`closedIds` lists the closed handles. -/
structure SessionWorld where
  nextId : Nat
  closedIds : List Nat
deriving DecidableEq

/-- The mutable session fields of an `EVTrackerClient`
(client.py:76-77): `self._session` and `self._owned_session`. -/
structure ClientSessionState where
  session : Option Nat
  owned : Bool
deriving DecidableEq

/-- `EVTrackerClient._get_session` (client.py:80-85): when
`self._session is None or self._session.closed`, store a fresh
`aiohttp.ClientSession()` and set `self._owned_session = True`; return
the stored session. -/
def _get_session (w : SessionWorld) (c : ClientSessionState) :
    SessionWorld × ClientSessionState × Nat :=
  match c.session with
  | none =>
    (⟨w.nextId + 1, w.closedIds⟩, ⟨some w.nextId, true⟩, w.nextId)
  | some sid =>
    if sid ∈ w.closedIds then
      (⟨w.nextId + 1, w.closedIds⟩, ⟨some w.nextId, true⟩, w.nextId)
    else
      (w, c, sid)

/-- `EVTrackerClient.close` (client.py:87-90): close the stored session
only when `self._owned_session and self._session and not
self._session.closed`.  The client fields themselves are not changed. -/
def clientClose (w : SessionWorld) (c : ClientSessionState) : SessionWorld :=
  if c.owned then
    match c.session with
    | some sid =>
      if sid ∈ w.closedIds then w else ⟨w.nextId, sid :: w.closedIds⟩
    | none => w
  else w

/-- Events a client instance's session state can see: its own
`_get_session` and `close` calls, and the surrounding program closing an
arbitrary session behind its back. -/
inductive ClientOp where
  | getSession
  | closeClient
  | externalClose (sid : Nat)
deriving DecidableEq

/-- Run a sequence of events over the world and one client's state. -/
def runOps : List ClientOp → SessionWorld → ClientSessionState →
    SessionWorld × ClientSessionState
  | [], w, c => (w, c)
  | .getSession :: rest, w, c =>
    let r := _get_session w c
    runOps rest r.1 r.2.1
  | .closeClient :: rest, w, c => runOps rest (clientClose w c) c
  | .externalClose sid :: rest, w, c =>
    runOps rest ⟨w.nextId, sid :: w.closedIds⟩ c

/-! ### Helper lemmas -/

/-- On an aware datetime, `_format_datetime_for_api` renders the UTC
calendar form of the instant the datetime denotes. -/
theorem format_dt_aware (loc : Int) (d : PyDatetime) (h : d.isAware = true) :
    _format_datetime_for_api loc (some (.dt d))
      = some (pyStrftimeISOZ (utcOfInstant d.awareInstant)) := by
  obtain ⟨o, ho⟩ := Option.isSome_iff_exists.mp
    (by simpa [PyDatetime.isAware] using h)
  simp [_format_datetime_for_api, datetimeAstimezoneUTC,
    PyDatetime.awareInstant, ho]

/-- Stripping trailing slashes absorbs one appended slash. -/
theorem pyRstripSlash_append_slash (s : String) :
    pyRstripSlash (s ++ "/") = pyRstripSlash s := by
  simp [pyRstripSlash, String.data_append]

/-! ### The claims -/

/-- C2: a timestamp supplied as a string is passed through unchanged; a
timezone-aware datetime is rendered from its UTC instant (so two aware
datetimes denoting the same instant render identically, whatever their
zones), always with second precision and a `Z` suffix; and the aware UTC
value 2025-11-26 22:00:00 renders as `"2025-11-26T22:00:00Z"`. -/
theorem claim_C2 :
    (∀ loc s, _format_datetime_for_api loc (some (.str s)) = some s)
  ∧ (∀ loc₁ loc₂ d₁ d₂, d₁.isAware = true → d₂.isAware = true →
      d₁.awareInstant = d₂.awareInstant →
      _format_datetime_for_api loc₁ (some (.dt d₁))
        = _format_datetime_for_api loc₂ (some (.dt d₂)))
  ∧ (∀ loc d, ∃ t, _format_datetime_for_api loc (some (.dt d)) = some (t ++ "Z"))
  ∧ (∀ loc, _format_datetime_for_api loc
      (some (.dt ⟨2025, 11, 26, 22, 0, 0, some 0⟩)) = some "2025-11-26T22:00:00Z") := by
  refine ⟨fun loc s => rfl, fun loc₁ loc₂ d₁ d₂ h₁ h₂ h12 => ?_, fun loc d => ?_, fun loc => ?_⟩
  · rw [format_dt_aware loc₁ d₁ h₁, format_dt_aware loc₂ d₂ h₂, h12]
  · exact ⟨_, rfl⟩
  · rw [format_dt_aware loc ⟨2025, 11, 26, 22, 0, 0, some 0⟩ rfl]
    decide

/-- Closed instance of C2: two aware datetimes denoting the instant
2025-11-26T22:00:00Z — one in UTC, one at offset +03:30 — both render as
`"2025-11-26T22:00:00Z"`, strings pass through, and the rendering of an
arbitrary aware value ends in `"Z"`. -/
theorem claim_C2_witness :
    _format_datetime_for_api 0 (some (.dt ⟨2025, 11, 26, 22, 0, 0, some 0⟩))
      = _format_datetime_for_api 120 (some (.dt ⟨2025, 11, 27, 1, 30, 0, some 210⟩))
  ∧ _format_datetime_for_api 0 (some (.str "2025-01-01T00:00:00Z"))
      = some "2025-01-01T00:00:00Z"
  ∧ (∃ t, _format_datetime_for_api 0
      (some (.dt ⟨2025, 11, 26, 22, 0, 0, some 0⟩)) = some (t ++ "Z"))
  ∧ _format_datetime_for_api 5 (some (.dt ⟨2025, 11, 26, 22, 0, 0, some 0⟩))
      = some "2025-11-26T22:00:00Z" := by
  refine ⟨claim_C2.2.1 0 120 _ _ rfl rfl (by decide),
    claim_C2.1 0 "2025-01-01T00:00:00Z", claim_C2.2.2.1 0 _, claim_C2.2.2.2 5⟩

/-- C4: `log_session` with only `energy_kwh` supplied (every optional
argument left at its `None` default) builds the request body
`{"energyConsumedKwh": value}` and nothing else, for every energy value
and every system zone. -/
theorem claim_C4 : ∀ (loc : Int) (v : Rat),
    log_session_payload loc { energy_kwh := v }
      = [("energyConsumedKwh", Json.num v)] :=
  fun _ _ => rfl

/-- C7: a trailing slash on the configured base URL is normalized away,
so the effective request URL of every endpoint is the same with or
without it. -/
theorem claim_C7 : ∀ (api_key s : String) (ua : Option String) (endpoint : String),
    (EVTrackerClient.init api_key (s ++ "/") ua).requestUrl endpoint
      = (EVTrackerClient.init api_key s ua).requestUrl endpoint := by
  intro api_key s ua endpoint
  simp [EVTrackerClient.init, EVTrackerClient.requestUrl, pyRstripSlash_append_slash]

/-- Shape of a successful `ChargingSession.from_dict`: `id` was present
and every other field is the documented lookup with its default. -/
theorem chargingSession_from_dict_ok (data : List (String × Json))
    (s : ChargingSession) (h : ChargingSession.from_dict data = .ok s) :
    ∃ idv st en,
      List.lookup "id" data = some idv
      ∧ _parse_datetime (dictGet data "startTime") = .ok st
      ∧ _parse_datetime (dictGet data "endTime") = .ok en
      ∧ s = { id := idv
            , energy_kwh := dictGetD data "energyConsumedKwh" (.num 0)
            , cost := dictGet data "totalCost"
            , start_time := st
            , end_time := en
            , location := dictGet data "location"
            , energy_source := dictGet data "energySource"
            , rate_type := dictGet data "rateType" } := by
  unfold ChargingSession.from_dict at h
  split at h
  · exact absurd h (by simp)
  · split at h
    · exact absurd h (by simp)
    · split at h
      · exact absurd h (by simp)
      · rename_i x₁ idv hid x₂ st hst x₃ en hen
        exact ⟨idv, st, en, hid, hst, hen, (Except.ok.inj h).symm⟩

/-- Shape of a successful `Car.from_dict`. -/
theorem car_from_dict_ok (data : List (String × Json)) (car : Car)
    (h : Car.from_dict data = .ok car) :
    ∃ idv namev,
      List.lookup "id" data = some idv
      ∧ List.lookup "name" data = some namev
      ∧ car = { id := idv, name := namev, make := dictGet data "make"
              , model := dictGet data "model", year := dictGet data "year" } := by
  unfold Car.from_dict at h
  split at h
  · exact absurd h (by simp)
  · split at h
    · exact absurd h (by simp)
    · rename_i x₁ idv hid x₂ namev hname
      exact ⟨idv, namev, hid, hname, (Except.ok.inj h).symm⟩

/-- C3: each model parser fails hard (a `KeyError`) when the required
`id` is missing; on success, every missing optional field resolves to its
documented default (`0.0` for the session energy, `0` for the monthly
session count) or an absent sentinel (`None`), never a type error; and
parsing a `ChargingSession` from `{"id": 100, "energyConsumedKwh": 25.5}`
yields `id = 100`, `energy_kwh = 25.5` with every optional field absent. -/
theorem claim_C3 :
    (∀ data, List.lookup "id" data = none →
        ChargingSession.from_dict data = .error (.keyError "id")
      ∧ Car.from_dict data = .error (.keyError "id"))
  ∧ (∀ data s, ChargingSession.from_dict data = .ok s →
        (List.lookup "energyConsumedKwh" data = none → s.energy_kwh = .num 0)
      ∧ (List.lookup "totalCost" data = none → s.cost = .null)
      ∧ (List.lookup "startTime" data = none → s.start_time = none)
      ∧ (List.lookup "endTime" data = none → s.end_time = none)
      ∧ (List.lookup "location" data = none → s.location = .null)
      ∧ (List.lookup "energySource" data = none → s.energy_source = .null)
      ∧ (List.lookup "rateType" data = none → s.rate_type = .null))
  ∧ (∀ data car, Car.from_dict data = .ok car →
        (List.lookup "make" data = none → car.make = .null)
      ∧ (List.lookup "model" data = none → car.model = .null)
      ∧ (List.lookup "year" data = none → car.year = .null))
  ∧ (∀ data,
        (List.lookup "monthlyEnergy" data = none →
          (HomeAssistantState.from_dict data).monthly_energy = .num 0)
      ∧ (List.lookup "monthlySessions" data = none →
          (HomeAssistantState.from_dict data).monthly_sessions = .int 0)
      ∧ (List.lookup "lastSessionEnergy" data = none →
          (HomeAssistantState.from_dict data).last_session_energy = .null)
      ∧ (List.lookup "avgCostPerKwh" data = none →
          (HomeAssistantState.from_dict data).avg_cost_per_kwh = .null))
  ∧ ChargingSession.from_dict [("id", .int 100), ("energyConsumedKwh", .num 25.5)]
      = .ok { id := .int 100, energy_kwh := .num 25.5, cost := .null
            , start_time := none, end_time := none
            , location := .null, energy_source := .null, rate_type := .null } := by
  refine ⟨fun data h => ?_, fun data s h => ?_, fun data car h => ?_,
    fun data => ?_, rfl⟩
  · constructor
    · unfold ChargingSession.from_dict
      rw [h]
    · unfold Car.from_dict
      rw [h]
  · obtain ⟨idv, st, en, hid, hst, hen, hs⟩ := chargingSession_from_dict_ok data s h
    subst hs
    refine ⟨fun ha => ?_, fun ha => ?_, fun ha => ?_, fun ha => ?_,
      fun ha => ?_, fun ha => ?_, fun ha => ?_⟩
    · simp [dictGetD, ha]
    · simp [dictGet, ha]
    · simp [dictGet, ha, _parse_datetime] at hst
      simpa using hst.symm
    · simp [dictGet, ha, _parse_datetime] at hen
      simpa using hen.symm
    · simp [dictGet, ha]
    · simp [dictGet, ha]
    · simp [dictGet, ha]
  · obtain ⟨idv, namev, hid, hname, hcar⟩ := car_from_dict_ok data car h
    subst hcar
    exact ⟨fun ha => by simp [dictGet, ha], fun ha => by simp [dictGet, ha],
      fun ha => by simp [dictGet, ha]⟩
  · exact ⟨fun ha => by simp [HomeAssistantState.from_dict, dictGetD, ha],
      fun ha => by simp [HomeAssistantState.from_dict, dictGetD, ha],
      fun ha => by simp [HomeAssistantState.from_dict, dictGet, ha],
      fun ha => by simp [HomeAssistantState.from_dict, dictGet, ha]⟩

/-- Closed instance of C3: the parsers applied to concrete objects — a
session and a car lacking `id` fail with `KeyError`, and a session parsed
from `{"id": 1}` gets the default energy `0.0` and absent optionals. -/
theorem claim_C3_witness :
    (ChargingSession.from_dict [("energyConsumedKwh", .num 25.5)]
        = .error (.keyError "id")
      ∧ Car.from_dict [("energyConsumedKwh", .num 25.5)]
        = .error (.keyError "id"))
  ∧ ((ChargingSession.from_dict [("id", .int 1)]).map ChargingSession.energy_kwh
        = .ok (.num 0)
      ∧ (ChargingSession.from_dict [("id", .int 1)]).map ChargingSession.start_time
        = .ok none)
  ∧ (Car.from_dict [("id", .int 1), ("name", .str "Tesla")]).map Car.make
        = .ok .null
  ∧ (HomeAssistantState.from_dict []).monthly_sessions = .int 0 := by
  have e2 : ChargingSession.from_dict [("id", Json.int 1)]
      = .ok { id := Json.int 1, energy_kwh := Json.num 0, cost := Json.null
            , start_time := none, end_time := none, location := Json.null
            , energy_source := Json.null, rate_type := Json.null } := rfl
  have h2 := claim_C3.2.1 [("id", Json.int 1)] _ e2
  have e3 : Car.from_dict [("id", Json.int 1), ("name", Json.str "Tesla")]
      = .ok { id := Json.int 1, name := Json.str "Tesla", make := Json.null
            , model := Json.null, year := Json.null } := rfl
  have h3 := claim_C3.2.2.1 [("id", Json.int 1), ("name", Json.str "Tesla")] _ e3
  refine ⟨claim_C3.1 [("energyConsumedKwh", Json.num 25.5)] rfl, ⟨?_, ?_⟩, ?_,
    (claim_C3.2.2.2.1 []).2.1 rfl⟩
  · rw [e2]
    exact congrArg Except.ok (h2.1 rfl)
  · rw [e2]
    exact congrArg Except.ok (h2.2.2.1 rfl)
  · rw [e3]
    exact congrArg Except.ok (h3.1 rfl)

/-- C5: a 429 response on any endpoint (any client, method, body) raises
a rate-limit error whose message embeds the `Retry-After` header value
when present and `"60"` when absent. -/
theorem claim_C5 : ∀ (c : EVTrackerClient) (method endpoint : String)
    (hdrs : List (String × String)) (text : String) (body : Option Json),
    (∀ v, List.lookup "Retry-After" hdrs = some v →
      c._request method endpoint (.response 429 hdrs text body)
        = .error (.evRateLimit
            ("Rate limit exceeded. Retry after " ++ v ++ " seconds")))
  ∧ (List.lookup "Retry-After" hdrs = none →
      c._request method endpoint (.response 429 hdrs text body)
        = .error (.evRateLimit "Rate limit exceeded. Retry after 60 seconds")) := by
  intro c method endpoint hdrs text body
  constructor
  · intro v hv
    simp [EVTrackerClient._request, hv]
  · intro hv
    simp [EVTrackerClient._request, hv]

/-- Closed instance of C5: with `Retry-After: 17` the message embeds 17;
with no headers it embeds 60. -/
theorem claim_C5_witness :
    (EVTrackerClient.init "k" DEFAULT_API_BASE_URL none)._request "GET" ENDPOINT_CARS
        (.response 429 [("Retry-After", "17")] "" none)
      = .error (.evRateLimit "Rate limit exceeded. Retry after 17 seconds")
  ∧ (EVTrackerClient.init "k" DEFAULT_API_BASE_URL none)._request "GET" ENDPOINT_CARS
        (.response 429 [] "" none)
      = .error (.evRateLimit "Rate limit exceeded. Retry after 60 seconds") :=
  ⟨(claim_C5 (EVTrackerClient.init "k" DEFAULT_API_BASE_URL none) "GET" ENDPOINT_CARS
      [("Retry-After", "17")] "" none).1 "17" rfl,
   (claim_C5 (EVTrackerClient.init "k" DEFAULT_API_BASE_URL none) "GET" ENDPOINT_CARS
      [] "" none).2 rfl⟩

/-- C6: a 2xx response to `get_default_car` whose envelope lacks `data`
or carries `data: null` yields the normal outcome `none` — no error, no
exception. -/
theorem claim_C6 : ∀ (c : EVTrackerClient) (st : Nat)
    (hdrs : List (String × String)) (text : String) (fs : List (String × Json)),
    200 ≤ st → st ≤ 299 →
    (List.lookup "data" fs = none ∨ List.lookup "data" fs = some .null) →
    c.get_default_car (.response st hdrs text (some (.obj fs))) = .ok none := by
  intro c st hdrs text fs hlo hhi hd
  have e1 : st ≠ 401 := by omega
  have e2 : st ≠ 403 := by omega
  have e3 : st ≠ 429 := by omega
  have e4 : ¬ (500 ≤ st) := by omega
  have e5 : ¬ (400 ≤ st) := by omega
  rcases hd with hd | hd <;>
    simp [EVTrackerClient.get_default_car, EVTrackerClient._request,
      e1, e2, e3, e4, e5, dictGet, hd, Json.truthy]

/-- Closed instance of C6: a 200 envelope with `data: null` and one with
no `data` key both yield `.ok none`. -/
theorem claim_C6_witness :
    (EVTrackerClient.init "k" DEFAULT_API_BASE_URL none).get_default_car
        (.response 200 [] "" (some (.obj [("data", .null)]))) = .ok none
  ∧ (EVTrackerClient.init "k" DEFAULT_API_BASE_URL none).get_default_car
        (.response 200 [] "" (some (.obj []))) = .ok none :=
  ⟨claim_C6 (EVTrackerClient.init "k" DEFAULT_API_BASE_URL none) 200 [] ""
      [("data", .null)] (by decide) (by decide) (Or.inr rfl),
   claim_C6 (EVTrackerClient.init "k" DEFAULT_API_BASE_URL none) 200 [] ""
      [] (by decide) (by decide) (Or.inl rfl)⟩

/-- C10: `get_default_car` maps every falsy `data` value of a 2xx
envelope — not only `null`/absent — to the `none` outcome; in particular
an empty object `{}` yields `none` rather than a required-field parse
failure. -/
theorem claim_C10 :
    (∀ (c : EVTrackerClient) (st : Nat) (hdrs : List (String × String))
      (text : String) (fs : List (String × Json)) (j : Json),
      200 ≤ st → st ≤ 299 →
      List.lookup "data" fs = some j → j.truthy = false →
      c.get_default_car (.response st hdrs text (some (.obj fs))) = .ok none)
  ∧ (∀ (c : EVTrackerClient) (hdrs : List (String × String)) (text : String),
      c.get_default_car
        (.response 200 hdrs text (some (.obj [("data", .obj [])]))) = .ok none) := by
  constructor
  · intro c st hdrs text fs j hlo hhi hd ht
    have e1 : st ≠ 401 := by omega
    have e2 : st ≠ 403 := by omega
    have e3 : st ≠ 429 := by omega
    have e4 : ¬ (500 ≤ st) := by omega
    have e5 : ¬ (400 ≤ st) := by omega
    simp [EVTrackerClient.get_default_car, EVTrackerClient._request,
      e1, e2, e3, e4, e5, dictGet, hd, ht]
  · intro c hdrs text
    simp [EVTrackerClient.get_default_car, EVTrackerClient._request,
      dictGet, Json.truthy]

/-- Closed instance of C10: a 200 envelope with each falsy `data` shape
(`{}`, `0`, `""`, `[]`, `false`) yields `.ok none`. -/
theorem claim_C10_witness :
    (EVTrackerClient.init "k" DEFAULT_API_BASE_URL none).get_default_car
        (.response 200 [] "" (some (.obj [("data", .obj [])]))) = .ok none
  ∧ (EVTrackerClient.init "k" DEFAULT_API_BASE_URL none).get_default_car
        (.response 204 [] "" (some (.obj [("data", .int 0)]))) = .ok none
  ∧ (EVTrackerClient.init "k" DEFAULT_API_BASE_URL none).get_default_car
        (.response 200 [] "" (some (.obj [("data", .str "")]))) = .ok none
  ∧ (EVTrackerClient.init "k" DEFAULT_API_BASE_URL none).get_default_car
        (.response 200 [] "" (some (.obj [("data", .arr [])]))) = .ok none
  ∧ (EVTrackerClient.init "k" DEFAULT_API_BASE_URL none).get_default_car
        (.response 200 [] "" (some (.obj [("data", .bool false)]))) = .ok none :=
  ⟨claim_C10.2 (EVTrackerClient.init "k" DEFAULT_API_BASE_URL none) [] "",
   claim_C10.1 (EVTrackerClient.init "k" DEFAULT_API_BASE_URL none) 204 [] ""
      [("data", .int 0)] (.int 0) (by decide) (by decide) rfl rfl,
   claim_C10.1 (EVTrackerClient.init "k" DEFAULT_API_BASE_URL none) 200 [] ""
      [("data", .str "")] (.str "") (by decide) (by decide) rfl rfl,
   claim_C10.1 (EVTrackerClient.init "k" DEFAULT_API_BASE_URL none) 200 [] ""
      [("data", .arr [])] (.arr []) (by decide) (by decide) rfl rfl,
   claim_C10.1 (EVTrackerClient.init "k" DEFAULT_API_BASE_URL none) 200 [] ""
      [("data", .bool false)] (.bool false) (by decide) (by decide) rfl rfl⟩

/-- A key occurring in a `segDt` segment is that segment's key. -/
theorem mem_fst_segDt {x key : String} {loc : Int} {t : Option DtArg}
    (h : x ∈ (segDt loc key t).map Prod.fst) : x = key := by
  unfold segDt at h
  split at h
  · simp at h
  · split at h
    · split at h
      · simp at h
      · simpa using h
    · simp at h

/-- A key occurring in a `segStr` segment is that segment's key. -/
theorem mem_fst_segStr {x key : String} {v : Option String}
    (h : x ∈ (segStr key v).map Prod.fst) : x = key := by
  unfold segStr at h
  split at h
  · simp at h
  · split at h
    · simp at h
    · simpa using h

/-- A key occurring in a `segStrUpper` segment is that segment's key. -/
theorem mem_fst_segStrUpper {x key : String} {v : Option String}
    (h : x ∈ (segStrUpper key v).map Prod.fst) : x = key := by
  unfold segStrUpper at h
  split at h
  · simp at h
  · split at h
    · simp at h
    · simpa using h

/-- A key occurring in a `segInt` segment is that segment's key. -/
theorem mem_fst_segInt {x key : String} {v : Option Int}
    (h : x ∈ (segInt key v).map Prod.fst) : x = key := by
  cases v with
  | none => simp [segInt] at h
  | some n => simpa [segInt] using h

/-- A key occurring in a `segNum` segment is that segment's key. -/
theorem mem_fst_segNum {x key : String} {v : Option Rat}
    (h : x ∈ (segNum key v).map Prod.fst) : x = key := by
  cases v with
  | none => simp [segNum] at h
  | some q => simpa [segNum] using h

/-- A key of the `log_session` body comes from one of its segments. -/
theorem mem_fst_log_session_payload {x : String} {loc : Int} {a : LogSessionArgs}
    (h : x ∈ (log_session_payload loc a).map Prod.fst) :
    x = "energyConsumedKwh"
    ∨ x ∈ (segDt loc "startTime" a.start_time).map Prod.fst
    ∨ x ∈ (segDt loc "endTime" a.end_time).map Prod.fst
    ∨ x ∈ (segInt "carId" a.car_id).map Prod.fst
    ∨ x ∈ (segStr "location" a.location).map Prod.fst
    ∨ x ∈ (segStr "externalId" a.external_id).map Prod.fst
    ∨ x ∈ (segStr "provider" a.provider).map Prod.fst
    ∨ x ∈ (segStrUpper "energySource" a.energy_source).map Prod.fst
    ∨ x ∈ (segStrUpper "rateType" a.rate_type).map Prod.fst
    ∨ x ∈ (segNum "pricePerKwhWithoutVat" a.price_per_kwh).map Prod.fst
    ∨ x ∈ (segNum "vatPercentage" a.vat_percentage).map Prod.fst
    ∨ x ∈ (segStr "notes" a.notes).map Prod.fst := by
  simpa [log_session_payload, List.map_append, or_assoc] using h

/-- A key of the `log_session_simple` body comes from one of its segments. -/
theorem mem_fst_log_session_simple_payload {x : String} {loc : Int}
    {b : LogSessionSimpleArgs}
    (h : x ∈ (log_session_simple_payload loc b).map Prod.fst) :
    x = "energyConsumedKwh"
    ∨ x ∈ (segDt loc "startTime" b.start_time).map Prod.fst
    ∨ x ∈ (segDt loc "endTime" b.end_time).map Prod.fst
    ∨ x ∈ (segInt "carId" b.car_id).map Prod.fst
    ∨ x ∈ (segStr "location" b.location).map Prod.fst
    ∨ x ∈ (segStr "externalId" b.external_id).map Prod.fst
    ∨ x ∈ (segStrUpper "energySource" b.energy_source).map Prod.fst
    ∨ x ∈ (segStrUpper "rateType" b.rate_type).map Prod.fst := by
  simpa [log_session_simple_payload, List.map_append, or_assoc] using h

/-- In the `log_session` body, `location = ""` builds the same body as
`location = None`. -/
theorem log_session_empty_location_eq (loc : Int) (a : LogSessionArgs) :
    log_session_payload loc { a with location := some "" }
      = log_session_payload loc { a with location := none } := rfl

/-- In the `log_session` body, `location = ""` leaves the key
`"location"` out. -/
theorem log_session_empty_location_not_mem (loc : Int) (a : LogSessionArgs) :
    "location" ∉ (log_session_payload loc { a with location := some "" }).map Prod.fst := by
  intro h
  rcases mem_fst_log_session_payload h with h|h|h|h|h|h|h|h|h|h|h|h <;>
    first
    | exact absurd h (by decide)
    | exact absurd (mem_fst_segDt h) (by decide)
    | exact absurd (mem_fst_segInt h) (by decide)
    | exact absurd (mem_fst_segStrUpper h) (by decide)
    | exact absurd (mem_fst_segNum h) (by decide)
    | exact absurd (mem_fst_segStr h) (by decide)
    | simp [segStr, segStrUpper] at h

/-- In the `log_session` body, `external_id = ""` builds the same body as
`external_id = None`. -/
theorem log_session_empty_external_id_eq (loc : Int) (a : LogSessionArgs) :
    log_session_payload loc { a with external_id := some "" }
      = log_session_payload loc { a with external_id := none } := rfl

/-- In the `log_session` body, `external_id = ""` leaves the key
`"externalId"` out. -/
theorem log_session_empty_external_id_not_mem (loc : Int) (a : LogSessionArgs) :
    "externalId" ∉ (log_session_payload loc { a with external_id := some "" }).map Prod.fst := by
  intro h
  rcases mem_fst_log_session_payload h with h|h|h|h|h|h|h|h|h|h|h|h <;>
    first
    | exact absurd h (by decide)
    | exact absurd (mem_fst_segDt h) (by decide)
    | exact absurd (mem_fst_segInt h) (by decide)
    | exact absurd (mem_fst_segStrUpper h) (by decide)
    | exact absurd (mem_fst_segNum h) (by decide)
    | exact absurd (mem_fst_segStr h) (by decide)
    | simp [segStr, segStrUpper] at h

/-- In the `log_session` body, `provider = ""` builds the same body as
`provider = None`. -/
theorem log_session_empty_provider_eq (loc : Int) (a : LogSessionArgs) :
    log_session_payload loc { a with provider := some "" }
      = log_session_payload loc { a with provider := none } := rfl

/-- In the `log_session` body, `provider = ""` leaves the key
`"provider"` out. -/
theorem log_session_empty_provider_not_mem (loc : Int) (a : LogSessionArgs) :
    "provider" ∉ (log_session_payload loc { a with provider := some "" }).map Prod.fst := by
  intro h
  rcases mem_fst_log_session_payload h with h|h|h|h|h|h|h|h|h|h|h|h <;>
    first
    | exact absurd h (by decide)
    | exact absurd (mem_fst_segDt h) (by decide)
    | exact absurd (mem_fst_segInt h) (by decide)
    | exact absurd (mem_fst_segStrUpper h) (by decide)
    | exact absurd (mem_fst_segNum h) (by decide)
    | exact absurd (mem_fst_segStr h) (by decide)
    | simp [segStr, segStrUpper] at h

/-- In the `log_session` body, `energy_source = ""` builds the same body as
`energy_source = None`. -/
theorem log_session_empty_energy_source_eq (loc : Int) (a : LogSessionArgs) :
    log_session_payload loc { a with energy_source := some "" }
      = log_session_payload loc { a with energy_source := none } := rfl

/-- In the `log_session` body, `energy_source = ""` leaves the key
`"energySource"` out. -/
theorem log_session_empty_energy_source_not_mem (loc : Int) (a : LogSessionArgs) :
    "energySource" ∉ (log_session_payload loc { a with energy_source := some "" }).map Prod.fst := by
  intro h
  rcases mem_fst_log_session_payload h with h|h|h|h|h|h|h|h|h|h|h|h <;>
    first
    | exact absurd h (by decide)
    | exact absurd (mem_fst_segDt h) (by decide)
    | exact absurd (mem_fst_segInt h) (by decide)
    | exact absurd (mem_fst_segStrUpper h) (by decide)
    | exact absurd (mem_fst_segNum h) (by decide)
    | exact absurd (mem_fst_segStr h) (by decide)
    | simp [segStr, segStrUpper] at h

/-- In the `log_session` body, `rate_type = ""` builds the same body as
`rate_type = None`. -/
theorem log_session_empty_rate_type_eq (loc : Int) (a : LogSessionArgs) :
    log_session_payload loc { a with rate_type := some "" }
      = log_session_payload loc { a with rate_type := none } := rfl

/-- In the `log_session` body, `rate_type = ""` leaves the key
`"rateType"` out. -/
theorem log_session_empty_rate_type_not_mem (loc : Int) (a : LogSessionArgs) :
    "rateType" ∉ (log_session_payload loc { a with rate_type := some "" }).map Prod.fst := by
  intro h
  rcases mem_fst_log_session_payload h with h|h|h|h|h|h|h|h|h|h|h|h <;>
    first
    | exact absurd h (by decide)
    | exact absurd (mem_fst_segDt h) (by decide)
    | exact absurd (mem_fst_segInt h) (by decide)
    | exact absurd (mem_fst_segStrUpper h) (by decide)
    | exact absurd (mem_fst_segNum h) (by decide)
    | exact absurd (mem_fst_segStr h) (by decide)
    | simp [segStr, segStrUpper] at h

/-- In the `log_session` body, `notes = ""` builds the same body as
`notes = None`. -/
theorem log_session_empty_notes_eq (loc : Int) (a : LogSessionArgs) :
    log_session_payload loc { a with notes := some "" }
      = log_session_payload loc { a with notes := none } := rfl

/-- In the `log_session` body, `notes = ""` leaves the key
`"notes"` out. -/
theorem log_session_empty_notes_not_mem (loc : Int) (a : LogSessionArgs) :
    "notes" ∉ (log_session_payload loc { a with notes := some "" }).map Prod.fst := by
  intro h
  rcases mem_fst_log_session_payload h with h|h|h|h|h|h|h|h|h|h|h|h <;>
    first
    | exact absurd h (by decide)
    | exact absurd (mem_fst_segDt h) (by decide)
    | exact absurd (mem_fst_segInt h) (by decide)
    | exact absurd (mem_fst_segStrUpper h) (by decide)
    | exact absurd (mem_fst_segNum h) (by decide)
    | exact absurd (mem_fst_segStr h) (by decide)
    | simp [segStr, segStrUpper] at h

/-- In the `log_session_simple` body, `location = ""` builds the same body
as `location = None`. -/
theorem log_session_simple_empty_location_eq (loc : Int) (b : LogSessionSimpleArgs) :
    log_session_simple_payload loc { b with location := some "" }
      = log_session_simple_payload loc { b with location := none } := rfl

/-- In the `log_session_simple` body, `location = ""` leaves the key
`"location"` out. -/
theorem log_session_simple_empty_location_not_mem (loc : Int) (b : LogSessionSimpleArgs) :
    "location" ∉ (log_session_simple_payload loc { b with location := some "" }).map Prod.fst := by
  intro h
  rcases mem_fst_log_session_simple_payload h with h|h|h|h|h|h|h|h <;>
    first
    | exact absurd h (by decide)
    | exact absurd (mem_fst_segDt h) (by decide)
    | exact absurd (mem_fst_segInt h) (by decide)
    | exact absurd (mem_fst_segStrUpper h) (by decide)
    | exact absurd (mem_fst_segStr h) (by decide)
    | simp [segStr, segStrUpper] at h

/-- In the `log_session_simple` body, `external_id = ""` builds the same body
as `external_id = None`. -/
theorem log_session_simple_empty_external_id_eq (loc : Int) (b : LogSessionSimpleArgs) :
    log_session_simple_payload loc { b with external_id := some "" }
      = log_session_simple_payload loc { b with external_id := none } := rfl

/-- In the `log_session_simple` body, `external_id = ""` leaves the key
`"externalId"` out. -/
theorem log_session_simple_empty_external_id_not_mem (loc : Int) (b : LogSessionSimpleArgs) :
    "externalId" ∉ (log_session_simple_payload loc { b with external_id := some "" }).map Prod.fst := by
  intro h
  rcases mem_fst_log_session_simple_payload h with h|h|h|h|h|h|h|h <;>
    first
    | exact absurd h (by decide)
    | exact absurd (mem_fst_segDt h) (by decide)
    | exact absurd (mem_fst_segInt h) (by decide)
    | exact absurd (mem_fst_segStrUpper h) (by decide)
    | exact absurd (mem_fst_segStr h) (by decide)
    | simp [segStr, segStrUpper] at h

/-- In the `log_session_simple` body, `energy_source = ""` builds the same body
as `energy_source = None`. -/
theorem log_session_simple_empty_energy_source_eq (loc : Int) (b : LogSessionSimpleArgs) :
    log_session_simple_payload loc { b with energy_source := some "" }
      = log_session_simple_payload loc { b with energy_source := none } := rfl

/-- In the `log_session_simple` body, `energy_source = ""` leaves the key
`"energySource"` out. -/
theorem log_session_simple_empty_energy_source_not_mem (loc : Int) (b : LogSessionSimpleArgs) :
    "energySource" ∉ (log_session_simple_payload loc { b with energy_source := some "" }).map Prod.fst := by
  intro h
  rcases mem_fst_log_session_simple_payload h with h|h|h|h|h|h|h|h <;>
    first
    | exact absurd h (by decide)
    | exact absurd (mem_fst_segDt h) (by decide)
    | exact absurd (mem_fst_segInt h) (by decide)
    | exact absurd (mem_fst_segStrUpper h) (by decide)
    | exact absurd (mem_fst_segStr h) (by decide)
    | simp [segStr, segStrUpper] at h

/-- In the `log_session_simple` body, `rate_type = ""` builds the same body
as `rate_type = None`. -/
theorem log_session_simple_empty_rate_type_eq (loc : Int) (b : LogSessionSimpleArgs) :
    log_session_simple_payload loc { b with rate_type := some "" }
      = log_session_simple_payload loc { b with rate_type := none } := rfl

/-- In the `log_session_simple` body, `rate_type = ""` leaves the key
`"rateType"` out. -/
theorem log_session_simple_empty_rate_type_not_mem (loc : Int) (b : LogSessionSimpleArgs) :
    "rateType" ∉ (log_session_simple_payload loc { b with rate_type := some "" }).map Prod.fst := by
  intro h
  rcases mem_fst_log_session_simple_payload h with h|h|h|h|h|h|h|h <;>
    first
    | exact absurd h (by decide)
    | exact absurd (mem_fst_segDt h) (by decide)
    | exact absurd (mem_fst_segInt h) (by decide)
    | exact absurd (mem_fst_segStrUpper h) (by decide)
    | exact absurd (mem_fst_segStr h) (by decide)
    | simp [segStr, segStrUpper] at h

/-- C8: in both `log_session` and `log_session_simple`, an optional
string argument explicitly supplied as `""` produces exactly the body
omission would (inclusion is gated on `if value:` truthiness, not on
whether the argument was supplied), and its key is absent from the body. -/
theorem claim_C8 : ∀ (loc : Int) (a : LogSessionArgs) (b : LogSessionSimpleArgs),
    (log_session_payload loc { a with location := some "" }
        = log_session_payload loc { a with location := none }
      ∧ "location" ∉ (log_session_payload loc { a with location := some "" }).map Prod.fst)
  ∧
    (log_session_payload loc { a with external_id := some "" }
        = log_session_payload loc { a with external_id := none }
      ∧ "externalId" ∉ (log_session_payload loc { a with external_id := some "" }).map Prod.fst)
  ∧
    (log_session_payload loc { a with provider := some "" }
        = log_session_payload loc { a with provider := none }
      ∧ "provider" ∉ (log_session_payload loc { a with provider := some "" }).map Prod.fst)
  ∧
    (log_session_payload loc { a with energy_source := some "" }
        = log_session_payload loc { a with energy_source := none }
      ∧ "energySource" ∉ (log_session_payload loc { a with energy_source := some "" }).map Prod.fst)
  ∧
    (log_session_payload loc { a with rate_type := some "" }
        = log_session_payload loc { a with rate_type := none }
      ∧ "rateType" ∉ (log_session_payload loc { a with rate_type := some "" }).map Prod.fst)
  ∧
    (log_session_payload loc { a with notes := some "" }
        = log_session_payload loc { a with notes := none }
      ∧ "notes" ∉ (log_session_payload loc { a with notes := some "" }).map Prod.fst)
  ∧
    (log_session_simple_payload loc { b with location := some "" }
        = log_session_simple_payload loc { b with location := none }
      ∧ "location" ∉ (log_session_simple_payload loc { b with location := some "" }).map Prod.fst)
  ∧
    (log_session_simple_payload loc { b with external_id := some "" }
        = log_session_simple_payload loc { b with external_id := none }
      ∧ "externalId" ∉ (log_session_simple_payload loc { b with external_id := some "" }).map Prod.fst)
  ∧
    (log_session_simple_payload loc { b with energy_source := some "" }
        = log_session_simple_payload loc { b with energy_source := none }
      ∧ "energySource" ∉ (log_session_simple_payload loc { b with energy_source := some "" }).map Prod.fst)
  ∧
    (log_session_simple_payload loc { b with rate_type := some "" }
        = log_session_simple_payload loc { b with rate_type := none }
      ∧ "rateType" ∉ (log_session_simple_payload loc { b with rate_type := some "" }).map Prod.fst) :=
  fun loc a b =>
  ⟨⟨log_session_empty_location_eq loc a, log_session_empty_location_not_mem loc a⟩,
   ⟨log_session_empty_external_id_eq loc a, log_session_empty_external_id_not_mem loc a⟩,
   ⟨log_session_empty_provider_eq loc a, log_session_empty_provider_not_mem loc a⟩,
   ⟨log_session_empty_energy_source_eq loc a, log_session_empty_energy_source_not_mem loc a⟩,
   ⟨log_session_empty_rate_type_eq loc a, log_session_empty_rate_type_not_mem loc a⟩,
   ⟨log_session_empty_notes_eq loc a, log_session_empty_notes_not_mem loc a⟩,
   ⟨log_session_simple_empty_location_eq loc b, log_session_simple_empty_location_not_mem loc b⟩,
   ⟨log_session_simple_empty_external_id_eq loc b, log_session_simple_empty_external_id_not_mem loc b⟩,
   ⟨log_session_simple_empty_energy_source_eq loc b, log_session_simple_empty_energy_source_not_mem loc b⟩,
   ⟨log_session_simple_empty_rate_type_eq loc b, log_session_simple_empty_rate_type_not_mem loc b⟩⟩

/-- C1 (amended): `validate_api_key` returns `true` when `get_cars`
succeeds, `false` on an authentication error, `false` on any other API
error — and `false`, not a re-raise, when a connection error occurs,
because `EVTrackerConnectionError` derives from `EVTrackerApiError` and
is therefore caught by the `except EVTrackerApiError` clause. -/
theorem claim_C1 : ∀ (c : EVTrackerClient) (outcome : HttpOutcome),
    (∀ cars, c.get_cars outcome = .ok cars →
      c.validate_api_key outcome = .ok true)
  ∧ (∀ m, c.get_cars outcome = .error (.evAuth m) →
      c.validate_api_key outcome = .ok false)
  ∧ (∀ e, c.get_cars outcome = .error e → e.isEVTrackerApiError = true →
      c.validate_api_key outcome = .ok false)
  ∧ (∀ m, c.validate_api_key (.clientError m) = .ok false) := by
  intro c outcome
  refine ⟨fun cars h => ?_, fun m h => ?_, fun e h he => ?_, fun m => rfl⟩
  · simp [EVTrackerClient.validate_api_key, h]
  · simp [EVTrackerClient.validate_api_key, h,
      PyErr.isEVTrackerAuthenticationError]
  · cases e <;> simp_all [EVTrackerClient.validate_api_key,
      PyErr.isEVTrackerAuthenticationError, PyErr.isEVTrackerApiError]

/-- Closed instance of C1: a 200 envelope with `data: []` validates to
`true`; a 401 validates to `false`; a 429 (a non-authentication API
error) validates to `false`; an unreachable server validates to `false`. -/
theorem claim_C1_witness :
    (EVTrackerClient.init "k" DEFAULT_API_BASE_URL none).validate_api_key
        (.response 200 [] "" (some (.obj [("data", .arr [])]))) = .ok true
  ∧ (EVTrackerClient.init "k" DEFAULT_API_BASE_URL none).validate_api_key
        (.response 401 [] "" none) = .ok false
  ∧ (EVTrackerClient.init "k" DEFAULT_API_BASE_URL none).validate_api_key
        (.response 429 [] "" none) = .ok false
  ∧ (EVTrackerClient.init "k" DEFAULT_API_BASE_URL none).validate_api_key
        (.clientError "Cannot connect to host") = .ok false :=
  ⟨(claim_C1 (EVTrackerClient.init "k" DEFAULT_API_BASE_URL none)
      (.response 200 [] "" (some (.obj [("data", .arr [])])))).1 [] rfl,
   (claim_C1 (EVTrackerClient.init "k" DEFAULT_API_BASE_URL none)
      (.response 401 [] "" none)).2.1 "Invalid API key" rfl,
   (claim_C1 (EVTrackerClient.init "k" DEFAULT_API_BASE_URL none)
      (.response 429 [] "" none)).2.2.1
      (.evRateLimit "Rate limit exceeded. Retry after 60 seconds") rfl rfl,
   (claim_C1 (EVTrackerClient.init "k" DEFAULT_API_BASE_URL none)
      (.clientError "x")).2.2.2 "Cannot connect to host"⟩

/-- Counterexample to C1 as stated: when the transport raises a
connection error (server unreachable), `validate_api_key` does not
propagate it — it returns `false`, because the connection error class is
a subclass of the base API error class and the `except EVTrackerApiError`
clause catches it. -/
theorem claim_C1_counterexample :
    (EVTrackerClient.init "k" DEFAULT_API_BASE_URL none).validate_api_key
        (.clientError "Cannot connect to host") = .ok false
  ∧ ¬ ∃ e, (EVTrackerClient.init "k" DEFAULT_API_BASE_URL none).validate_api_key
        (.clientError "Cannot connect to host") = .error e := by
  refine ⟨rfl, ?_⟩
  rintro ⟨e, he⟩
  rw [show (EVTrackerClient.init "k" DEFAULT_API_BASE_URL none).validate_api_key
      (.clientError "Cannot connect to host") = .ok false from rfl] at he
  exact absurd he (by simp)

/-- Invariant behind C9: a client that starts not owning its stored
session never closes the handle `sup` — the only handles its `close` can
close are ones its own `_get_session` created, and those are fresh, hence
distinct from `sup`. -/
theorem runOps_not_closes_foreign (sup : Nat) :
    ∀ (ops : List ClientOp) (w : SessionWorld) (c : ClientSessionState),
    sup < w.nextId → sup ∉ w.closedIds →
    (c.owned = true → c.session ≠ some sup) →
    ClientOp.externalClose sup ∉ ops →
    sup ∉ (runOps ops w c).1.closedIds := by
  intro ops
  induction ops with
  | nil =>
    intro w c h1 h2 h3 h4
    simpa [runOps] using h2
  | cons op rest ih =>
    intro w c h1 h2 h3 h4
    have hop : op ≠ ClientOp.externalClose sup := fun he =>
      h4 (he ▸ List.mem_cons_self op rest)
    have hrest : ClientOp.externalClose sup ∉ rest := fun hm =>
      h4 (List.mem_cons_of_mem op hm)
    cases op with
    | getSession =>
      simp only [runOps]
      cases hs : c.session with
      | none =>
        simp only [_get_session, hs]
        exact ih ⟨w.nextId + 1, w.closedIds⟩ ⟨some w.nextId, true⟩
          (by simp; omega) h2
          (fun _ hc => by simp at hc; omega) hrest
      | some sid =>
        by_cases hc : sid ∈ w.closedIds
        · simp only [_get_session, hs, if_pos hc]
          exact ih ⟨w.nextId + 1, w.closedIds⟩ ⟨some w.nextId, true⟩
            (by simp; omega) h2
            (fun _ hcc => by simp at hcc; omega) hrest
        · simp only [_get_session, hs, if_neg hc]
          exact ih w c h1 h2 h3 hrest
    | closeClient =>
      simp only [runOps]
      refine ih (clientClose w c) c ?_ ?_ h3 hrest
      · unfold clientClose
        split
        · split
          · split
            · exact h1
            · exact h1
          · exact h1
        · exact h1
      · unfold clientClose
        split
        · rename_i ho
          split
          · rename_i x sid hs
            split
            · exact h2
            · rename_i hns
              intro hm
              rcases List.mem_cons.mp hm with he | hm'
              · exact h3 ho (hs ▸ congrArg some he.symm ▸ rfl) |>.elim
              · exact h2 hm'
          · exact h2
        · exact h2
    | externalClose sid =>
      simp only [runOps]
      have hsid : sid ≠ sup := fun he => hop (by rw [he])
      refine ih ⟨w.nextId, sid :: w.closedIds⟩ c h1 ?_ h3 hrest
      intro hm
      rcases List.mem_cons.mp hm with he | hm'
      · exact hsid he.symm
      · exact h2 hm'

/-- C9: `_get_session` replaces a missing or closed stored session with a
fresh one the client then owns (in particular a closed caller-supplied
session is silently replaced); `close` does nothing when the ownership
flag is unset; and across any sequence of client operations, a
caller-supplied session is never closed by the client — only an external
close of that very handle can close it. -/
theorem claim_C9 :
    (∀ (w : SessionWorld) (c : ClientSessionState),
      (∀ i ∈ w.closedIds, i < w.nextId) →
      (c.session = none ∨ ∃ sid, c.session = some sid ∧ sid ∈ w.closedIds) →
      _get_session w c
          = (⟨w.nextId + 1, w.closedIds⟩, ⟨some w.nextId, true⟩, w.nextId)
        ∧ w.nextId ∉ w.closedIds)
  ∧ (∀ (w : SessionWorld) (c : ClientSessionState),
      c.owned = false → clientClose w c = w)
  ∧ (∀ (ops : List ClientOp) (w₀ : SessionWorld) (sup : Nat),
      sup < w₀.nextId → sup ∉ w₀.closedIds →
      ClientOp.externalClose sup ∉ ops →
      sup ∉ (runOps ops w₀ ⟨some sup, false⟩).1.closedIds) := by
  refine ⟨fun w c hwf hc => ⟨?_, fun hmem => absurd (hwf _ hmem) (by omega)⟩,
    fun w c ho => by simp [clientClose, ho], fun ops w₀ sup h1 h2 h4 => ?_⟩
  · rcases hc with hn | ⟨sid, hs, hmem⟩
    · simp [_get_session, hn]
    · simp [_get_session, hs, hmem]
  · exact runOps_not_closes_foreign sup ops w₀ ⟨some sup, false⟩ h1 h2
      (fun hf => absurd hf (by simp)) h4

/-- Closed instance of C9: a client built around the caller's open
session `0` replaces it once it is externally closed (taking ownership of
fresh handle `1`), a non-owning `close` is a no-op, and over the trace
"use, caller closes 0, use again, client closes" the caller's handle `0`
is closed only by the caller — the run never has the client close it. -/
theorem claim_C9_witness :
    (_get_session ⟨1, [0]⟩ ⟨some 0, false⟩ = (⟨2, [0]⟩, ⟨some 1, true⟩, 1)
      ∧ (1 : Nat) ∉ [0])
  ∧ clientClose ⟨1, []⟩ ⟨some 0, false⟩ = ⟨1, []⟩
  ∧ (0 : Nat) ∉ (runOps [.getSession, .closeClient, .externalClose 1]
      ⟨1, []⟩ ⟨some 0, false⟩).1.closedIds :=
  ⟨claim_C9.1 ⟨1, [0]⟩ ⟨some 0, false⟩ (by decide)
      (Or.inr ⟨0, rfl, by decide⟩),
   claim_C9.2.1 ⟨1, []⟩ ⟨some 0, false⟩ rfl,
   claim_C9.2.2 [.getSession, .closeClient, .externalClose 1] ⟨1, []⟩ 0
      (by decide) (by decide) (by decide)⟩

end EvTracker
